import Mathlib

/-!
Verification of the usage-count aggregation pipeline in `src/AIEd.py`.

The program is a single-file Dash application whose only non-trivial logic is
the callback `update_graph` (lines 84-116): it decodes an uploaded CSV,
checks for a `timestamp` column, parses the column with `pd.to_datetime`,
filters rows to a date range, buckets them by day / week / month, and groups
by bucket with counts.  This file gives a shallow embedding of that callback
and of the calendar arithmetic behind the pandas operations it uses, and
proves the specification claims against it.

Calendar model: a `Date` is a year/month/day record; `dateToDay` maps a date
to its serial day number (days since 0000-03-01 in the proleptic Gregorian
calendar, the same day numbering that underlies pandas timestamps).
`dateToDay ⟨1970,1,1⟩ = 719468`, and day numbers increase by exactly one per
calendar day, which is proved below (`dateToDay_prevDate`).
-/

structure Date where
  year : Nat
  month : Nat
  day : Nat
deriving DecidableEq, Repr

/-- Serial day number of a proleptic-Gregorian date: days since 0000-03-01.
March is taken as the first month of the (shifted) year, so the leap day is
the last day of the shifted year; `(153 * mp + 2) / 5` is the number of days
before shifted-month `mp` (0 = March, ..., 11 = February). -/
def dateToDay (d : Date) : Nat :=
  (if d.month ≤ 2 then d.year - 1 else d.year) / 400 * 146097
    + (if d.month ≤ 2 then d.year - 1 else d.year) % 400 * 365
    + (if d.month ≤ 2 then d.year - 1 else d.year) % 400 / 4
    - (if d.month ≤ 2 then d.year - 1 else d.year) % 400 / 100
    + (153 * ((d.month + 9) % 12) + 2) / 5 + d.day - 1

/-- Gregorian leap-year rule. -/
def isLeap (y : Nat) : Prop := y % 4 = 0 ∧ (y % 100 ≠ 0 ∨ y % 400 = 0)

instance (y : Nat) : Decidable (isLeap y) := by unfold isLeap; infer_instance

/-- Number of days in a calendar month. -/
def daysInMonth (y m : Nat) : Nat :=
  if m = 2 then (if isLeap y then 29 else 28)
  else if m = 4 ∨ m = 6 ∨ m = 9 ∨ m = 11 then 30
  else 31

/-- A calendar-valid date of the common era. -/
def ValidDate (d : Date) : Prop :=
  1 ≤ d.year ∧ 1 ≤ d.month ∧ d.month ≤ 12 ∧ 1 ≤ d.day ∧
    d.day ≤ daysInMonth d.year d.month

instance (d : Date) : Decidable (ValidDate d) := by unfold ValidDate; infer_instance

/-- The calendar day before `d`. -/
def prevDate (d : Date) : Date :=
  if 1 < d.day then ⟨d.year, d.month, d.day - 1⟩
  else if 1 < d.month then ⟨d.year, d.month - 1, daysInMonth d.year (d.month - 1)⟩
  else ⟨d.year - 1, 12, 31⟩

/-- The date `k` calendar days before `d`. -/
def subDays (d : Date) : Nat → Date
  | 0 => d
  | k + 1 => subDays (prevDate d) k

/-- Index of the day of week, with 0 = Monday, ..., 6 = Sunday.
0000-03-01 (day number 0) was a Wednesday, hence the offset 2;
this calibration makes `dateToDay ⟨1970,1,1⟩ + 2 = 719470 ≡ 3 [MOD 7]`,
i.e. 1970-01-01 a Thursday, as it was. -/
def weekdayIdx (d : Date) : Nat := (dateToDay d + 2) % 7

theorem dateToDay_ge (d : Date) (h : ValidDate d) : 306 ≤ dateToDay d := by
  obtain ⟨y, m, dd⟩ := d
  obtain ⟨h1, h2, h3, h4, h5⟩ := h
  simp only [dateToDay]
  dsimp only at *
  split <;> omega

/-- Stepping one day back decrements the serial day number by one and
preserves calendar validity (as long as we stay after 0001-01-01,
whose day number is 306). -/
theorem dateToDay_prevDate (d : Date) (h : ValidDate d)
    (hgt : 306 < dateToDay d) :
    dateToDay (prevDate d) + 1 = dateToDay d ∧ ValidDate (prevDate d) := by
  obtain ⟨y, m, dd⟩ := d
  obtain ⟨h1, h2, h3, h4, h5⟩ := h
  dsimp only at *
  by_cases hdd : 1 < dd
  · simp only [prevDate]
    try dsimp only
    rw [if_pos hdd]
    constructor
    · simp only [dateToDay]
      try dsimp only
      split <;> omega
    · simp only [ValidDate]
      try dsimp only
      exact ⟨h1, h2, h3, by omega, by omega⟩
  · by_cases hm : 1 < m
    · have hdd1 : dd = 1 := by omega
      subst hdd1
      simp only [prevDate]
      try dsimp only
      rw [if_neg (by omega : ¬ 1 < (1 : Nat)), if_pos hm]
      constructor
      · interval_cases m <;>
          (simp only [dateToDay, daysInMonth, isLeap]; (try dsimp only); norm_num) <;>
          (try split) <;> omega
      · simp only [ValidDate, daysInMonth, isLeap]
        try dsimp only
        interval_cases m <;> norm_num <;> (try split) <;> omega
    · have hm1 : m = 1 := by omega
      have hdd1 : dd = 1 := by omega
      subst hm1; subst hdd1
      simp only [dateToDay] at hgt
      try dsimp only at hgt
      norm_num at hgt
      simp only [prevDate]
      try dsimp only
      rw [if_neg (by omega : ¬ 1 < (1 : Nat)), if_neg (by omega : ¬ 1 < (1 : Nat))]
      constructor
      · simp only [dateToDay, daysInMonth, isLeap]
        try dsimp only
        norm_num
      · simp only [ValidDate, daysInMonth, isLeap]
        try dsimp only
        norm_num
        omega

/-- Subtracting `k` days decrements the serial day number by `k` and
preserves validity, provided the walk stays after 0001-01-01. -/
theorem subDays_spec (k : Nat) : ∀ (d : Date), ValidDate d →
    306 + k ≤ dateToDay d →
    ValidDate (subDays d k) ∧ dateToDay (subDays d k) + k = dateToDay d := by
  induction k with
  | zero => exact fun d h _ => ⟨h, rfl⟩
  | succ n ih =>
    intro d h hk
    obtain ⟨he, hv⟩ := dateToDay_prevDate d h (by omega)
    obtain ⟨hv2, he2⟩ := ih (prevDate d) hv (by omega)
    exact ⟨hv2, by simp only [subDays]; omega⟩

/-!
Timestamps.  `pd.to_datetime` turns each cell of the `timestamp` column into
a pandas `Timestamp`; the inputs the program handles are ISO 8601 calendar
dates with an optional hour:minute time of day, so a timestamp is modelled
as a calendar date plus a minute-of-day.  `toAbs` is the absolute minute
count used for comparisons (pandas compares timestamps chronologically).
-/

structure Timestamp where
  date : Date
  minute : Nat
deriving DecidableEq, Repr

/-- Absolute minute count of a timestamp, for chronological comparison. -/
def toAbs (ts : Timestamp) : Nat := dateToDay ts.date * 1440 + ts.minute

/-- Bucket used for `time_period == "day"` (line 101 of src/AIEd.py):
`filtered_data["timestamp"].dt.date`, the calendar date of the event. -/
def dayBucket (ts : Timestamp) : Date := ts.date

/-- Bucket used for `time_period == "week"` (line 103 of src/AIEd.py):
`.dt.to_period("W").apply(lambda r: r.start_time)`.  A pandas default
weekly period is Monday-to-Sunday, so its `start_time` is the Monday of
the week containing the event; `weekdayIdx` is 0 on Mondays, so stepping
back `weekdayIdx` days lands on that Monday. -/
def weekBucket (ts : Timestamp) : Date := subDays ts.date (weekdayIdx ts.date)

/-- Bucket used for `time_period == "month"` (line 105 of src/AIEd.py):
`.dt.to_period("M").apply(lambda r: r.start_time)`, the first day of the
event's calendar month. -/
def monthBucket (ts : Timestamp) : Date := ⟨ts.date.year, ts.date.month, 1⟩

theorem dateToDay_large (d : Date) (h : ValidDate d) (hy : 1678 ≤ d.year) :
    612391 ≤ dateToDay d := by
  obtain ⟨y, m, dd⟩ := d
  obtain ⟨h1, h2, h3, h4, h5⟩ := h
  dsimp only at *
  simp only [dateToDay]
  try dsimp only
  split <;> omega

/-!
Ingestion.  Line 96 of src/AIEd.py, `pd.to_datetime(decoded["timestamp"])`,
parses every cell of the `timestamp` column (default `errors="raise"`: the
call raises on a cell that does not parse).  The model covers the input
format the spec fixes for the program: ISO 8601 calendar dates, optionally
followed by an hour:minute time of day (separated by `T` or a space).
-/

/-- Value of a decimal digit character. -/
def digitVal (c : Char) : Option Nat :=
  if 48 ≤ c.toNat ∧ c.toNat ≤ 57 then some (c.toNat - 48) else none

def parse2 (a b : Char) : Option Nat := do
  pure (10 * (← digitVal a) + (← digitVal b))

def parse4 (a b c d : Char) : Option Nat := do
  pure (1000 * (← digitVal a) + 100 * (← digitVal b) + 10 * (← digitVal c)
    + (← digitVal d))

/-- Calendar validation performed by `pd.to_datetime`: the date must be
calendar-valid and representable as a `datetime64[ns]` (pandas timestamps
range over 1677-09-21 .. 2262-04-11; the model keeps the full years of that
range). -/
def mkDate (y m d : Nat) : Option Date :=
  if ValidDate ⟨y, m, d⟩ ∧ 1678 ≤ y ∧ y ≤ 2261 then some ⟨y, m, d⟩ else none

/-- Time-of-day validation: hours below 24, minutes below 60. -/
def mkTime (h mi : Nat) : Option Nat :=
  if h < 24 ∧ mi < 60 then some (60 * h + mi) else none

/-- Parse one cell: `YYYY-MM-DD`, `YYYY-MM-DDTHH:MM` or `YYYY-MM-DD HH:MM`.
A bare date denotes midnight of that day. -/
def parseTsChars : List Char → Option Timestamp
  | [y1, y2, y3, y4, '-', m1, m2, '-', d1, d2] => do
    let y ← parse4 y1 y2 y3 y4
    let m ← parse2 m1 m2
    let d ← parse2 d1 d2
    let dt ← mkDate y m d
    pure ⟨dt, 0⟩
  | [y1, y2, y3, y4, '-', m1, m2, '-', d1, d2, 'T', h1, h2, ':', n1, n2] => do
    let y ← parse4 y1 y2 y3 y4
    let m ← parse2 m1 m2
    let d ← parse2 d1 d2
    let dt ← mkDate y m d
    let mi ← mkTime (← parse2 h1 h2) (← parse2 n1 n2)
    pure ⟨dt, mi⟩
  | [y1, y2, y3, y4, '-', m1, m2, '-', d1, d2, ' ', h1, h2, ':', n1, n2] => do
    let y ← parse4 y1 y2 y3 y4
    let m ← parse2 m1 m2
    let d ← parse2 d1 d2
    let dt ← mkDate y m d
    let mi ← mkTime (← parse2 h1 h2) (← parse2 n1 n2)
    pure ⟨dt, mi⟩
  | _ => none

def parseTimestamp (s : String) : Option Timestamp := parseTsChars s.data

/-- Python exceptions the callback can raise. -/
inductive PyError where
  | nameError (name : String)
  | keyError (key : String)
  | parseError (cell : String)
deriving DecidableEq, Repr

/-- `decoded["timestamp"]`: the cells of the column named `timestamp`
(missing cells modelled as empty strings, which do not parse). -/
def timestampCells (header : List String) (rows : List (List String)) :
    List String :=
  rows.map (fun r => r.getD (header.findIdx (fun c => c == "timestamp")) "")

/-- Line 96: `pd.to_datetime` over the whole column, before any filtering;
fails on the first cell that does not parse, returning that cell. -/
def parseColumn : List String → Except String (List Timestamp)
  | [] => Except.ok []
  | c :: cs =>
    match parseTimestamp c with
    | none => Except.error c
    | some ts =>
      match parseColumn cs with
      | Except.error e => Except.error e
      | Except.ok l => Except.ok (ts :: l)

/-- Line 97:
`decoded[(decoded["timestamp"] >= start_date) & (decoded["timestamp"] <= end_date)]`.
The `DatePickerRange` supplies bare dates; pandas coerces each to the
midnight timestamp of that day for the comparison, so the upper bound is
00:00 of `end_date` (not its end of day). -/
def dateRangeFilter (l : List Timestamp) (sd ed : Date) : List Timestamp :=
  l.filter (fun ts =>
    decide (dateToDay sd * 1440 ≤ toAbs ts) &&
      decide (toAbs ts ≤ dateToDay ed * 1440))

/-- Lines 100-105: the `if/elif` chain assigning `filtered_data["period"]`.
There is no `else` branch, so any other `time_period` leaves the `period`
column unassigned (`none`). -/
def assignPeriod (tp : String) (l : List Timestamp) : Option (List Date) :=
  if tp = "day" then some (l.map dayBucket)
  else if tp = "week" then some (l.map weekBucket)
  else if tp = "month" then some (l.map monthBucket)
  else none

/-- Chronological order on dates, the order pandas sorts group keys in. -/
def dateLE (a b : Date) : Prop := dateToDay a ≤ dateToDay b

instance : DecidableRel dateLE := fun a b => by unfold dateLE; infer_instance

instance : IsTotal Date dateLE := ⟨fun a b => Nat.le_total _ _⟩

instance : IsTrans Date dateLE := ⟨fun _ _ _ => Nat.le_trans⟩

/-- Line 107: `filtered_data.groupby("period").size().reset_index(name="count")`.
One output row per distinct period key with its number of occurrences,
keys sorted ascending (pandas `groupby` sorts group keys by default). -/
def groupCount (l : List Date) : List (Date × Nat) :=
  (List.insertionSort dateLE l.dedup).map (fun k => (k, l.count k))

/-- The three return values of the callback, reduced to what they carry:
the empty figure/table returned at lines 86 and 94, or the aggregated
(period, count) series that feeds the chart and the table (lines 110-116). -/
inductive GraphOutput where
  | empty
  | series (s : List (Date × Nat))
deriving DecidableEq, Repr

/-- Lines 92-107 of `update_graph`: everything after the decode step.
Mirrors the source order: column check (93-94), `pd.to_datetime` (96),
range filter (97), period assignment (100-105) and the `groupby` (107) —
which raises `KeyError` when the `period` column was never assigned. -/
def update_graph_body (header : List String) (rows : List (List String))
    (time_period : String) (start_date end_date : Date) :
    Except PyError GraphOutput :=
  if "timestamp" ∈ header then
    match parseColumn (timestampCells header rows) with
    | Except.error cell => Except.error (PyError.parseError cell)
    | Except.ok tss =>
      match assignPeriod time_period (dateRangeFilter tss start_date end_date) with
      | none => Except.error (PyError.keyError "period")
      | some periods => Except.ok (GraphOutput.series (groupCount periods))
  else Except.ok GraphOutput.empty

/-- The module-level names bound by lines 1-10 of src/AIEd.py (the imports
and the objects defined before the callback).  `base64` is not among them:
no `import base64` appears anywhere in the file. -/
def moduleBindings : List String :=
  ["dash", "dcc", "html", "Input", "Output", "State", "callback_context",
   "pd", "px", "go", "datetime", "timedelta", "DataTable", "app",
   "update_graph"]

/-- The module-level names read by the decode expression on line 90,
`pd.read_csv(pd.compat.StringIO(base64.b64decode(content_string).decode("utf-8")))`,
in evaluation order: `pd` (for `read_csv`), `pd` (for `compat.StringIO`),
then `base64`. -/
def decodeLineNames : List String := ["pd", "pd", "base64"]

/-- The first name of `names` that is not bound in `env`; evaluating the
expression raises `NameError` on that name. -/
def firstUnbound (env names : List String) : Option String :=
  names.find? (fun n => !(env.contains n))

/-- The callback `update_graph` (lines 84-116).  `file_contents` is the
uploaded file: `none` models an empty upload (line 85-86); otherwise the
upload is modelled as the CSV table (header and rows) that the data-url
transport of line 89-90 would deliver.  Before that table can be touched,
line 90 must evaluate, which resolves the module-level names in
`decodeLineNames`; an unbound name raises `NameError` there. -/
def update_graph (file_contents : Option (List String × List (List String)))
    (time_period : String) (start_date end_date : Date) :
    Except PyError GraphOutput :=
  match file_contents with
  | none => Except.ok GraphOutput.empty
  | some (header, rows) =>
    match firstUnbound moduleBindings decodeLineNames with
    | some n => Except.error (PyError.nameError n)
    | none => update_graph_body header rows time_period start_date end_date

deriving instance DecidableEq for Except

/-! Properties of the `groupby("period").size()` model. -/

theorem groupCount_keys (l : List Date) :
    (groupCount l).map Prod.fst = List.insertionSort dateLE l.dedup := by
  unfold groupCount
  rw [List.map_map]
  exact List.map_id _

theorem groupCount_sorted (l : List Date) :
    (groupCount l).Pairwise (fun p q => dateLE p.1 q.1) := by
  unfold groupCount
  rw [List.pairwise_map]
  exact List.sorted_insertionSort dateLE l.dedup

theorem groupCount_counts (l : List Date) (p : Date × Nat)
    (hp : p ∈ groupCount l) : p.2 = l.count p.1 ∧ 0 < p.2 ∧ p.1 ∈ l := by
  obtain ⟨k, hk, rfl⟩ := List.mem_map.mp hp
  have hkl : k ∈ l :=
    List.mem_dedup.mp ((List.perm_insertionSort dateLE l.dedup).mem_iff.mp hk)
  exact ⟨rfl, List.count_pos_iff.mpr hkl, hkl⟩

theorem groupCount_mem_iff (l : List Date) (k : Date) :
    k ∈ (groupCount l).map Prod.fst ↔ k ∈ l := by
  rw [groupCount_keys, (List.perm_insertionSort dateLE l.dedup).mem_iff]
  exact List.mem_dedup

theorem groupCount_nodup (l : List Date) :
    ((groupCount l).map Prod.fst).Nodup := by
  rw [groupCount_keys]
  exact ((List.perm_insertionSort dateLE l.dedup).nodup_iff).mpr l.nodup_dedup

theorem groupCount_sum (l : List Date) :
    ((groupCount l).map Prod.snd).sum = l.length := by
  have h1 : (groupCount l).map Prod.snd
      = (List.insertionSort dateLE l.dedup).map (fun k => l.count k) := by
    unfold groupCount
    rw [List.map_map]
    rfl
  rw [h1, ((List.perm_insertionSort dateLE l.dedup).map (fun k => l.count k)).sum_eq]
  exact List.sum_map_count_dedup_eq_length l

/-!
Exporter.  The source declares the "Export Aggregated Counts" button
(line 51 of src/AIEd.py) but wires no callback to it: the serialization
itself is absent from the source, so it is modelled from the spec below.
-/

/-- Decimal digit character for a value below ten. -/
def digitChar (n : Nat) : Char :=
  if n = 0 then '0' else if n = 1 then '1' else if n = 2 then '2'
  else if n = 3 then '3' else if n = 4 then '4' else if n = 5 then '5'
  else if n = 6 then '6' else if n = 7 then '7' else if n = 8 then '8'
  else '9'

/-- Decimal digit characters of `n`, most significant first. -/
def natDigits (n : Nat) : List Char :=
  if h : n < 10 then [digitChar n]
  else natDigits (n / 10) ++ [digitChar (n % 10)]
termination_by n
decreasing_by exact Nat.div_lt_self (by omega) (by omega)

/-- Digits of `n`, zero-padded to at least two places (ISO month and day
fields). -/
def natDigits2 (n : Nat) : List Char :=
  if n < 10 then '0' :: natDigits n else natDigits n

/-- Digits of `n`, zero-padded to at least four places (ISO year field). -/
def natDigits4 (n : Nat) : List Char :=
  if n < 10 then '0' :: '0' :: '0' :: natDigits n
  else if n < 100 then '0' :: '0' :: natDigits n
  else if n < 1000 then '0' :: natDigits n
  else natDigits n

/-- ISO calendar date string of a date, `YYYY-MM-DD`. -/
def isoDate (d : Date) : String :=
  String.mk (natDigits4 d.year ++ ('-' :: (natDigits2 d.month
    ++ ('-' :: natDigits2 d.day))))

/-- Modelled from the spec: the Exporter (spec section 4.3) has no
implementation in the source — line 51 of src/AIEd.py only declares the
"Export Aggregated Counts" button, with no callback attached.  Per the
spec, `export(series)` is a delimited text artifact: a deterministic
column header `period,count` followed by one row per (bucket, count) pair,
the bucket rendered as an ISO calendar date string and the count in
decimal.  The artifact is modelled as its rows of cells (cells contain
only digits and hyphens, so joining rows with newlines and cells with
commas is an injective serialization of this structure).  `export` is a
Lean keyword, hence the name. -/
def exportAggregated (s : List (Date × Nat)) : List (List String) :=
  ["period", "count"] :: s.map (fun p => [isoDate p.1, String.mk (natDigits p.2)])

/-- A character other than the ISO field separator. -/
def notDash (c : Char) : Bool := !(c == '-')

def parseNatAux : List Char → Nat → Option Nat
  | [], acc => some acc
  | c :: cs, acc =>
    match digitVal c with
    | some v => parseNatAux cs (10 * acc + v)
    | none => none

/-- Parse a non-empty string of decimal digits. -/
def parseNatChars : List Char → Option Nat
  | [] => none
  | c :: cs => parseNatAux (c :: cs) 0

/-- Modelled from the spec: read an ISO calendar date string back into its
three hyphen-separated numeric fields (when the tail after a digit run is
nonempty its head can only be the hyphen, so the heads are skipped without
inspection). -/
def parseIsoChars (cs : List Char) : Option Date :=
  match cs.dropWhile notDash with
  | [] => none
  | _ :: r2 =>
    match r2.dropWhile notDash with
    | [] => none
    | _ :: r3 => do
      let y ← parseNatChars (cs.takeWhile notDash)
      let m ← parseNatChars (r2.takeWhile notDash)
      let d ← parseNatChars r3
      pure ⟨y, m, d⟩

def parseIsoDate (str : String) : Option Date := parseIsoChars str.data

def parseRow : List String → Option (Date × Nat)
  | [b, c] => do
    let d ← parseIsoDate b
    let n ← parseNatChars c.data
    pure (d, n)
  | _ => none

def parseRows : List (List String) → Option (List (Date × Nat))
  | [] => some []
  | r :: rs => do
    let p ← parseRow r
    let ps ← parseRows rs
    pure (p :: ps)

/-- Modelled from the spec: parse an export artifact back into a series —
check the deterministic header row, then read each (bucket, count) row. -/
def parseExport : List (List String) → Option (List (Date × Nat))
  | hd :: body => if hd = ["period", "count"] then parseRows body else none
  | [] => none

/-! Round trip of the exporter model. -/

theorem digitChar_spec (v : Nat) (hv : v ≤ 9) :
    digitVal (digitChar v) = some v ∧ notDash (digitChar v) = true := by
  interval_cases v <;> exact ⟨by decide, by decide⟩

theorem natDigits_notDash (n : Nat) : ∀ c ∈ natDigits n, notDash c = true := by
  induction n using Nat.strong_induction_on with
  | _ n ih =>
    unfold natDigits
    split
    · intro c hc
      rcases List.mem_singleton.mp hc with rfl
      exact (digitChar_spec n (by omega)).2
    · intro c hc
      rcases List.mem_append.mp hc with h1 | h1
      · exact ih (n / 10) (Nat.div_lt_self (by omega) (by omega)) c h1
      · rcases List.mem_singleton.mp h1 with rfl
        exact (digitChar_spec (n % 10) (by omega)).2

theorem natDigits_ne_nil (n : Nat) : natDigits n ≠ [] := by
  unfold natDigits
  split
  · simp
  · simp

theorem parseNatAux_append (l1 l2 : List Char) : ∀ acc,
    parseNatAux (l1 ++ l2) acc
      = match parseNatAux l1 acc with
        | some a => parseNatAux l2 a
        | none => none := by
  induction l1 with
  | nil => intro acc; rfl
  | cons c cs ih =>
    intro acc
    simp only [List.cons_append, parseNatAux]
    cases digitVal c with
    | none => rfl
    | some v => exact ih (10 * acc + v)

theorem parseNatAux_natDigits (n : Nat) : ∀ acc,
    parseNatAux (natDigits n) acc
      = some (acc * 10 ^ (natDigits n).length + n) := by
  induction n using Nat.strong_induction_on with
  | _ n ih =>
    intro acc
    unfold natDigits
    split
    · rename_i h
      simp only [parseNatAux, (digitChar_spec n (by omega)).1,
        List.length_singleton, pow_one, Option.some.injEq]
      omega
    · rename_i h
      rw [parseNatAux_append]
      rw [ih (n / 10) (Nat.div_lt_self (by omega) (by omega)) acc]
      simp only [parseNatAux, (digitChar_spec (n % 10) (by omega)).1,
        List.length_append, List.length_singleton, pow_succ]
      have hmod : 10 * (n / 10) + n % 10 = n := by omega
      have hring : 10 * (acc * 10 ^ (natDigits (n / 10)).length + n / 10) + n % 10
          = acc * (10 ^ (natDigits (n / 10)).length * 10)
              + (10 * (n / 10) + n % 10) := by ring
      rw [hring, hmod]

theorem parseNatChars_natDigits (n : Nat) : parseNatChars (natDigits n) = some n := by
  obtain ⟨c, cs, hd⟩ := List.exists_cons_of_ne_nil (natDigits_ne_nil n)
  rw [hd]
  show parseNatAux (c :: cs) 0 = some n
  rw [← hd, parseNatAux_natDigits]
  simp

theorem parseNatAux_zero_cons (l : List Char) (acc : Nat) :
    parseNatAux ('0' :: l) acc = parseNatAux l (10 * acc) := rfl

theorem parseNatChars_natDigits2 (n : Nat) :
    parseNatChars (natDigits2 n) = some n := by
  unfold natDigits2
  split
  · show parseNatAux ('0' :: natDigits n) 0 = some n
    rw [parseNatAux_zero_cons, show 10 * 0 = 0 from rfl, parseNatAux_natDigits]
    simp
  · exact parseNatChars_natDigits n

theorem natDigits2_notDash (n : Nat) : ∀ c ∈ natDigits2 n, notDash c = true := by
  unfold natDigits2
  split
  · intro c hc
    rcases List.mem_cons.mp hc with rfl | h
    · decide
    · exact natDigits_notDash n c h
  · exact natDigits_notDash n

theorem parseNatChars_natDigits4 (n : Nat) :
    parseNatChars (natDigits4 n) = some n := by
  unfold natDigits4
  split
  · show parseNatAux ('0' :: '0' :: '0' :: natDigits n) 0 = some n
    rw [parseNatAux_zero_cons, parseNatAux_zero_cons, parseNatAux_zero_cons,
      show 10 * (10 * (10 * 0)) = 0 from rfl, parseNatAux_natDigits]
    simp
  · split
    · show parseNatAux ('0' :: '0' :: natDigits n) 0 = some n
      rw [parseNatAux_zero_cons, parseNatAux_zero_cons,
        show 10 * (10 * 0) = 0 from rfl, parseNatAux_natDigits]
      simp
    · split
      · show parseNatAux ('0' :: natDigits n) 0 = some n
        rw [parseNatAux_zero_cons, show 10 * 0 = 0 from rfl,
          parseNatAux_natDigits]
        simp
      · exact parseNatChars_natDigits n

theorem natDigits4_notDash (n : Nat) : ∀ c ∈ natDigits4 n, notDash c = true := by
  unfold natDigits4
  have hdig := natDigits_notDash n
  split
  · intro c hc
    rcases List.mem_cons.mp hc with rfl | hc
    · decide
    rcases List.mem_cons.mp hc with rfl | hc
    · decide
    rcases List.mem_cons.mp hc with rfl | hc
    · decide
    exact hdig c hc
  · split
    · intro c hc
      rcases List.mem_cons.mp hc with rfl | hc
      · decide
      rcases List.mem_cons.mp hc with rfl | hc
      · decide
      exact hdig c hc
    · split
      · intro c hc
        rcases List.mem_cons.mp hc with rfl | hc
        · decide
        exact hdig c hc
      · exact hdig

theorem takeWhile_append_dash (l r : List Char)
    (h : ∀ c ∈ l, notDash c = true) :
    (l ++ '-' :: r).takeWhile notDash = l := by
  induction l with
  | nil =>
    simp only [List.nil_append, List.takeWhile_cons]
    rw [show notDash ('-') = false from rfl]
    simp
  | cons c cs ih =>
    simp [List.takeWhile_cons, h c (List.mem_cons_self c cs),
      ih (fun x hx => h x (List.mem_cons_of_mem c hx))]

theorem dropWhile_append_dash (l r : List Char)
    (h : ∀ c ∈ l, notDash c = true) :
    (l ++ '-' :: r).dropWhile notDash = '-' :: r := by
  induction l with
  | nil =>
    simp only [List.nil_append, List.dropWhile_cons]
    rw [show notDash ('-') = false from rfl]
    simp
  | cons c cs ih =>
    simp [List.dropWhile_cons, h c (List.mem_cons_self c cs),
      ih (fun x hx => h x (List.mem_cons_of_mem c hx))]

theorem parseIsoDate_isoDate (d : Date) : parseIsoDate (isoDate d) = some d := by
  obtain ⟨y, m, dd⟩ := d
  show parseIsoChars (natDigits4 y ++ ('-' :: (natDigits2 m
    ++ ('-' :: natDigits2 dd)))) = some ⟨y, m, dd⟩
  unfold parseIsoChars
  rw [dropWhile_append_dash _ _ (natDigits4_notDash y)]
  dsimp only
  rw [dropWhile_append_dash _ _ (natDigits2_notDash m)]
  dsimp only
  rw [takeWhile_append_dash _ _ (natDigits4_notDash y),
    takeWhile_append_dash _ _ (natDigits2_notDash m),
    parseNatChars_natDigits4, parseNatChars_natDigits2, parseNatChars_natDigits2]
  rfl

theorem parseRows_map (s : List (Date × Nat)) :
    parseRows (s.map (fun p => [isoDate p.1, String.mk (natDigits p.2)]))
      = some s := by
  induction s with
  | nil => rfl
  | cons p ps ih =>
    obtain ⟨d, n⟩ := p
    simp only [List.map_cons, parseRows, parseRow]
    rw [parseIsoDate_isoDate, parseNatChars_natDigits, ih]
    rfl

/-- Round trip of the spec-modelled exporter: parsing the artifact back
recovers the series, pair for pair and in order. -/
theorem parseExport_exportAggregated (s : List (Date × Nat)) :
    parseExport (exportAggregated s) = some s := by
  unfold exportAggregated
  simp only [parseExport, if_true]
  exact parseRows_map s

/-! Helper facts about the pipeline stages, and the concrete scenario of
the spec: events 2024-01-01T10:00, 2024-01-01T15:00, 2024-01-02T08:00 with
range [2024-01-01, 2024-01-02]. -/

def scenarioHeader : List String := ["timestamp"]

def scenarioRows : List (List String) :=
  [["2024-01-01T10:00"], ["2024-01-01T15:00"], ["2024-01-02T08:00"]]

def jan1 : Date := ⟨2024, 1, 1⟩

def jan2 : Date := ⟨2024, 1, 2⟩

theorem update_graph_body_ok (header : List String)
    (rows : List (List String)) (tp : String) (sd ed : Date)
    (tss : List Timestamp) (hin : "timestamp" ∈ header)
    (hp : parseColumn (timestampCells header rows) = Except.ok tss) :
    update_graph_body header rows tp sd ed
      = match assignPeriod tp (dateRangeFilter tss sd ed) with
        | none => Except.error (PyError.keyError "period")
        | some periods => Except.ok (GraphOutput.series (groupCount periods)) := by
  unfold update_graph_body
  rw [if_pos hin, hp]

theorem update_graph_body_parse_err (header : List String)
    (rows : List (List String)) (tp : String) (sd ed : Date) (c : String)
    (hin : "timestamp" ∈ header)
    (hp : parseColumn (timestampCells header rows) = Except.error c) :
    update_graph_body header rows tp sd ed
      = Except.error (PyError.parseError c) := by
  unfold update_graph_body
  rw [if_pos hin, hp]

theorem assignPeriod_length (tp : String) (l : List Timestamp)
    (periods : List Date) (h : assignPeriod tp l = some periods) :
    periods.length = l.length := by
  unfold assignPeriod at h
  split at h
  · simp only [Option.some.injEq] at h
    rw [← h, List.length_map]
  · split at h
    · simp only [Option.some.injEq] at h
      rw [← h, List.length_map]
    · split at h
      · simp only [Option.some.injEq] at h
        rw [← h, List.length_map]
      · simp at h

/-- C1: the claim's concrete scenario fails on the code.  Line 97 compares
the full timestamps against `end_date` coerced to midnight, so the event at
2024-01-02T08:00 is dropped: granularity day yields the series
[(2024-01-01, 2)], not the claimed [(2024-01-01, 2), (2024-01-02, 1)]. -/
theorem C1_counterexample :
    update_graph_body scenarioHeader scenarioRows "day" jan1 jan2
        = Except.ok (GraphOutput.series [(jan1, 2)])
      ∧ ([(jan1, 2)] : List (Date × Nat)) ≠ [(jan1, 2), (jan2, 1)] :=
  ⟨by decide, by decide⟩

/-- C1 (amended): the date-range filter retains exactly the events whose
timestamp lies in [startDate 00:00, endDate 00:00] — the end bound is the
midnight of the end date, not its end of day — and on the scenario events
with granularity day the series is [(2024-01-01, 2)]. -/
theorem C1_filter_midnight_bounds (l : List Timestamp) (sd ed : Date)
    (ts : Timestamp) (hts : ts ∈ l) :
    (ts ∈ dateRangeFilter l sd ed ↔
        dateToDay sd * 1440 ≤ toAbs ts ∧ toAbs ts ≤ dateToDay ed * 1440)
      ∧ update_graph_body scenarioHeader scenarioRows "day" jan1 jan2
          = Except.ok (GraphOutput.series [(jan1, 2)]) := by
  constructor
  · unfold dateRangeFilter
    rw [List.mem_filter]
    simp [hts]
  · decide

theorem C1_witness :
    update_graph_body scenarioHeader scenarioRows "day" jan1 jan2
      = Except.ok (GraphOutput.series [(jan1, 2)]) :=
  (C1_filter_midnight_bounds [⟨jan1, 600⟩] jan1 jan2 ⟨jan1, 600⟩ (by decide)).2

/-- C2: for every non-None upload, `update_graph` raises `NameError` at the
decode step — line 90 reads the module-level name `base64`, which no import
binds — so no uploaded file is ever parsed, filtered, or bucketed. -/
theorem C2_decode_nameError (contents : List String × List (List String))
    (tp : String) (sd ed : Date) :
    update_graph (some contents) tp sd ed
      = Except.error (PyError.nameError "base64") := by
  obtain ⟨h, r⟩ := contents
  rfl

/-- C3: a file whose header lacks the `timestamp` column does not produce a
`SchemaError` (the program has no such error): lines 93-94 silently return
the empty figure and table, a non-error result. -/
theorem C3_counterexample :
    update_graph_body ["time"] [["2024-01-01T10:00"]] "day" jan1 jan2
      = Except.ok GraphOutput.empty := by decide

/-- C3 (amended): for every input whose header lacks the `timestamp`
column, the callback returns the empty output (empty figure, empty table)
without error; no series is produced, but no `SchemaError` is raised
either. -/
theorem C3_missing_column_empty (header : List String)
    (rows : List (List String)) (tp : String) (sd ed : Date)
    (h : "timestamp" ∉ header) :
    update_graph_body header rows tp sd ed = Except.ok GraphOutput.empty := by
  unfold update_graph_body
  rw [if_neg h]

theorem C3_witness :
    update_graph_body ["time"] [] "day" jan1 jan2 = Except.ok GraphOutput.empty :=
  C3_missing_column_empty ["time"] [] "day" jan1 jan2 (by decide)

/-- C4: a start date strictly after the end date does not produce an
`InvalidRangeError` (the program has no such check): the range filter is
simply empty and the callback returns an empty series, a non-error
result. -/
theorem C4_counterexample :
    update_graph_body scenarioHeader scenarioRows "day" ⟨2024, 2, 1⟩ ⟨2024, 1, 1⟩
      = Except.ok (GraphOutput.series []) := by decide

/-- C4 (amended): for every well-formed input with a supported granularity
and start date strictly after end date, the callback returns the empty
series — not an error. -/
theorem C4_start_after_end_empty (header : List String)
    (rows : List (List String)) (tp : String) (sd ed : Date)
    (tss : List Timestamp) (hin : "timestamp" ∈ header)
    (hp : parseColumn (timestampCells header rows) = Except.ok tss)
    (htp : tp = "day" ∨ tp = "week" ∨ tp = "month")
    (hlt : dateToDay ed < dateToDay sd) :
    update_graph_body header rows tp sd ed
      = Except.ok (GraphOutput.series []) := by
  rw [update_graph_body_ok header rows tp sd ed tss hin hp]
  have hf : dateRangeFilter tss sd ed = [] := by
    apply List.eq_nil_iff_forall_not_mem.mpr
    intro ts hmem
    rw [dateRangeFilter, List.mem_filter] at hmem
    have := hmem.2
    simp only [Bool.and_eq_true, decide_eq_true_eq] at this
    omega
  rw [hf]
  rcases htp with rfl | rfl | rfl <;> rfl

theorem C4_witness :
    update_graph_body scenarioHeader scenarioRows "week" ⟨2024, 2, 1⟩ ⟨2024, 1, 1⟩
      = Except.ok (GraphOutput.series []) :=
  C4_start_after_end_empty scenarioHeader scenarioRows "week" ⟨2024, 2, 1⟩
    ⟨2024, 1, 1⟩ [⟨jan1, 600⟩, ⟨jan1, 900⟩, ⟨jan2, 480⟩] (by decide) (by decide)
    (by simp) (by decide)

/-- C5: an unsupported granularity does not produce an
`InvalidGranularityError` (the program has no such error): with
`time_period = "hour"` the `if/elif` chain assigns no `period` column and
line 107 raises `KeyError` instead. -/
theorem C5_counterexample :
    update_graph_body scenarioHeader scenarioRows "hour" jan1 jan2
      = Except.error (PyError.keyError "period") := by decide

/-- C5 (amended): for every granularity outside {day, week, month} (and
well-formed input reaching the grouping), the callback fails with
`KeyError` on the missing `period` column — it does fail rather than
silently defaulting or computing a series, but with `KeyError`, not a
dedicated `InvalidGranularityError`. -/
theorem C5_invalid_granularity_keyError (header : List String)
    (rows : List (List String)) (tp : String) (sd ed : Date)
    (tss : List Timestamp) (hin : "timestamp" ∈ header)
    (hp : parseColumn (timestampCells header rows) = Except.ok tss)
    (h1 : tp ≠ "day") (h2 : tp ≠ "week") (h3 : tp ≠ "month") :
    update_graph_body header rows tp sd ed
      = Except.error (PyError.keyError "period") := by
  rw [update_graph_body_ok header rows tp sd ed tss hin hp]
  unfold assignPeriod
  rw [if_neg h1, if_neg h2, if_neg h3]

theorem C5_witness :
    update_graph_body scenarioHeader scenarioRows "hour" jan1 jan2
      = Except.error (PyError.keyError "period") :=
  C5_invalid_granularity_keyError scenarioHeader scenarioRows "hour" jan1 jan2
    [⟨jan1, 600⟩, ⟨jan1, 900⟩, ⟨jan2, 480⟩] (by decide) (by decide)
    (by decide) (by decide) (by decide)

/-- C6: for every run of the callback that produces a series, the sum of
the bucket counts equals the number of events that passed the date-range
filter. -/
theorem C6_sum_counts (header : List String) (rows : List (List String))
    (tp : String) (sd ed : Date) (tss : List Timestamp)
    (s : List (Date × Nat))
    (hp : parseColumn (timestampCells header rows) = Except.ok tss)
    (hrun : update_graph_body header rows tp sd ed
      = Except.ok (GraphOutput.series s)) :
    (s.map Prod.snd).sum = (dateRangeFilter tss sd ed).length := by
  by_cases hin : "timestamp" ∈ header
  · rw [update_graph_body_ok header rows tp sd ed tss hin hp] at hrun
    cases hap : assignPeriod tp (dateRangeFilter tss sd ed) with
    | none => rw [hap] at hrun; simp at hrun
    | some periods =>
      rw [hap] at hrun
      simp only [Except.ok.injEq, GraphOutput.series.injEq] at hrun
      subst hrun
      rw [groupCount_sum]
      exact assignPeriod_length tp _ periods hap
  · unfold update_graph_body at hrun
    rw [if_neg hin] at hrun
    simp at hrun

theorem C6_witness :
    (([(jan1, 2)] : List (Date × Nat)).map Prod.snd).sum
      = (dateRangeFilter [⟨jan1, 600⟩, ⟨jan1, 900⟩, ⟨jan2, 480⟩] jan1 jan2).length :=
  C6_sum_counts scenarioHeader scenarioRows "day" jan1 jan2
    [⟨jan1, 600⟩, ⟨jan1, 900⟩, ⟨jan2, 480⟩] [(jan1, 2)] (by decide) (by decide)

/-- C7: the claim's concrete scenario fails on the code.  The week bucket
of every retained event is indeed the Monday 2024-01-01, but the midnight
end bound of the range filter (line 97) drops the 2024-01-02T08:00 event,
so the week series is [(2024-01-01, 2)], not the claimed
[(2024-01-01, 3)]. -/
theorem C7_counterexample :
    update_graph_body scenarioHeader scenarioRows "week" jan1 jan2
        = Except.ok (GraphOutput.series [(jan1, 2)])
      ∧ ([(jan1, 2)] : List (Date × Nat)) ≠ [(jan1, 3)] :=
  ⟨by decide, by decide⟩

/-- C7 (amended): for every event with a valid timestamp, the week bucket
is the Monday of the week containing it — a Monday (weekday index 0), at
most the event's date, less than seven days before it, and itself a valid
date — and on the scenario events, where the filter retains only the two
2024-01-01 events, the week series is [(2024-01-01, 2)]. -/
theorem C7_week_bucket_monday (ts : Timestamp) (h : ValidDate ts.date)
    (hy : 1678 ≤ ts.date.year) :
    (weekdayIdx (weekBucket ts) = 0
      ∧ ValidDate (weekBucket ts)
      ∧ dateToDay (weekBucket ts) ≤ dateToDay ts.date
      ∧ dateToDay ts.date < dateToDay (weekBucket ts) + 7)
    ∧ update_graph_body scenarioHeader scenarioRows "week" jan1 jan2
        = Except.ok (GraphOutput.series [(jan1, 2)]) := by
  constructor
  · have hl := dateToDay_large ts.date h hy
    have hw : weekdayIdx ts.date < 7 := Nat.mod_lt _ (by omega)
    obtain ⟨hv, he⟩ := subDays_spec (weekdayIdx ts.date) ts.date h (by omega)
    have hwk : weekdayIdx ts.date = (dateToDay ts.date + 2) % 7 := rfl
    refine ⟨?_, hv, ?_, ?_⟩
    · show (dateToDay (weekBucket ts) + 2) % 7 = 0
      rw [show weekBucket ts = subDays ts.date (weekdayIdx ts.date) from rfl]
      omega
    · rw [show weekBucket ts = subDays ts.date (weekdayIdx ts.date) from rfl]
      omega
    · rw [show weekBucket ts = subDays ts.date (weekdayIdx ts.date) from rfl]
      omega
  · decide

theorem C7_witness :
    update_graph_body scenarioHeader scenarioRows "week" jan1 jan2
      = Except.ok (GraphOutput.series [(jan1, 2)]) :=
  (C7_week_bucket_monday ⟨jan2, 480⟩ (by decide) (by decide)).2

/-- C8: round trip of the exporter — for every series the callback
produces, exporting it as the delimited artifact and parsing that artifact
back yields exactly the same (bucket, count) pairs in the same order.
The exporter itself is modelled from the spec, since the source wires no
callback to the export button. -/
theorem C8_export_roundtrip (header : List String)
    (rows : List (List String)) (tp : String) (sd ed : Date)
    (s : List (Date × Nat))
    (hrun : update_graph_body header rows tp sd ed
      = Except.ok (GraphOutput.series s)) :
    parseExport (exportAggregated s) = some s :=
  parseExport_exportAggregated s

theorem C8_witness :
    parseExport (exportAggregated [(jan1, 2)]) = some [(jan1, 2)] :=
  C8_export_roundtrip scenarioHeader scenarioRows "day" jan1 jan2 [(jan1, 2)]
    (by decide)

theorem parseColumn_error_cell (cs : List String) (c : String) :
    parseColumn cs = Except.error c → c ∈ cs ∧ parseTimestamp c = none := by
  induction cs with
  | nil => intro h; simp [parseColumn] at h
  | cons a as ih =>
    intro h
    simp only [parseColumn] at h
    cases hpa : parseTimestamp a with
    | none =>
      rw [hpa] at h
      simp only [Except.error.injEq] at h
      subst h
      exact ⟨List.mem_cons_self a as, hpa⟩
    | some ts =>
      rw [hpa] at h
      cases hr : parseColumn as with
      | error e =>
        rw [hr] at h
        simp only [Except.error.injEq] at h
        subst h
        obtain ⟨hmem, hfail⟩ := ih hr
        exact ⟨List.mem_cons_of_mem a hmem, hfail⟩
      | ok l =>
        rw [hr] at h
        simp at h

/-- C9: a row with an unparseable timestamp is not excluded from the
result.  With rows 2024-01-01T10:00 and "notadate", `pd.to_datetime`
raises on the bad cell (line 96, default errors="raise"), so the whole
call fails instead of returning the surviving row. -/
theorem C9_counterexample :
    update_graph_body scenarioHeader [["2024-01-01T10:00"], ["notadate"]]
        "day" jan1 jan2
        = Except.error (PyError.parseError "notadate")
      ∧ update_graph_body scenarioHeader [["2024-01-01T10:00"], ["notadate"]]
          "day" jan1 jan2
        ≠ Except.ok (GraphOutput.series [(jan1, 1)]) :=
  ⟨by decide, by decide⟩

/-- C9 (amended): whenever any cell of the timestamp column fails to
parse, the whole callback raises the parse error of the first failing
cell — no rows are excluded-and-returned, and the all-rows-fail case
raises the same parse error rather than a `NoValidTimestampsError`. -/
theorem C9_parse_failure_raises (header : List String)
    (rows : List (List String)) (tp : String) (sd ed : Date) (c : String)
    (hin : "timestamp" ∈ header)
    (hp : parseColumn (timestampCells header rows) = Except.error c) :
    update_graph_body header rows tp sd ed
        = Except.error (PyError.parseError c)
      ∧ c ∈ timestampCells header rows ∧ parseTimestamp c = none :=
  ⟨update_graph_body_parse_err header rows tp sd ed c hin hp,
    (parseColumn_error_cell _ c hp).1, (parseColumn_error_cell _ c hp).2⟩

theorem C9_witness :
    update_graph_body scenarioHeader [["notadate"]] "day" jan1 jan2
        = Except.error (PyError.parseError "notadate")
      ∧ "notadate" ∈ timestampCells scenarioHeader [["notadate"]]
      ∧ parseTimestamp "notadate" = none :=
  C9_parse_failure_raises scenarioHeader [["notadate"]] "day" jan1 jan2
    "notadate" (by decide) (by decide)

/-- C10: every series the callback produces is sorted ascending by bucket
key with no duplicate buckets; each count is the number of retained events
assigned that bucket (hence positive); and the buckets are exactly the
distinct bucket values observed among the retained events — no zero-count
buckets are inserted. -/
theorem C10_series_invariants (header : List String)
    (rows : List (List String)) (tp : String) (sd ed : Date)
    (s : List (Date × Nat))
    (hrun : update_graph_body header rows tp sd ed
      = Except.ok (GraphOutput.series s)) :
    s.Pairwise (fun p q => dateToDay p.1 ≤ dateToDay q.1)
      ∧ (s.map Prod.fst).Nodup
      ∧ ∃ tss periods,
          parseColumn (timestampCells header rows) = Except.ok tss
          ∧ assignPeriod tp (dateRangeFilter tss sd ed) = some periods
          ∧ (∀ p ∈ s, p.2 = periods.count p.1 ∧ 0 < p.2)
          ∧ (∀ k : Date, k ∈ s.map Prod.fst ↔ k ∈ periods) := by
  by_cases hin : "timestamp" ∈ header
  · cases hpc : parseColumn (timestampCells header rows) with
    | error c =>
      rw [update_graph_body_parse_err header rows tp sd ed c hin hpc] at hrun
      simp at hrun
    | ok tss =>
      rw [update_graph_body_ok header rows tp sd ed tss hin hpc] at hrun
      cases hap : assignPeriod tp (dateRangeFilter tss sd ed) with
      | none => rw [hap] at hrun; simp at hrun
      | some periods =>
        rw [hap] at hrun
        simp only [Except.ok.injEq, GraphOutput.series.injEq] at hrun
        subst hrun
        refine ⟨groupCount_sorted periods, groupCount_nodup periods,
          tss, periods, rfl, hap, ?_, fun k => groupCount_mem_iff periods k⟩
        intro p hps
        obtain ⟨h1, h2, _⟩ := groupCount_counts periods p hps
        exact ⟨h1, h2⟩
  · unfold update_graph_body at hrun
    rw [if_neg hin] at hrun
    simp at hrun

theorem C10_witness :
    ([(jan1, 2)] : List (Date × Nat)).Pairwise
        (fun p q => dateToDay p.1 ≤ dateToDay q.1)
      ∧ (([(jan1, 2)] : List (Date × Nat)).map Prod.fst).Nodup
      ∧ ∃ tss periods,
          parseColumn (timestampCells scenarioHeader scenarioRows)
            = Except.ok tss
          ∧ assignPeriod "day" (dateRangeFilter tss jan1 jan2) = some periods
          ∧ (∀ p ∈ ([(jan1, 2)] : List (Date × Nat)),
              p.2 = periods.count p.1 ∧ 0 < p.2)
          ∧ (∀ k : Date,
              k ∈ ([(jan1, 2)] : List (Date × Nat)).map Prod.fst
                ↔ k ∈ periods) :=
  C10_series_invariants scenarioHeader scenarioRows "day" jan1 jan2
    [(jan1, 2)] (by decide)
